import Mathlib

/-!
Verification of the environmental RF impact estimator
(`environmental_rf_module.py`, class `EnvironmentalRFFactors`).

Numbers are modelled exactly: weather fields and the purely rational
computations live in `ℚ`; the wind zone factors, which go through
`math.cos`, live in `ℝ`.  Python's `round(x, 3)` is modelled by
`pyRound3` below via Mathlib's `round` (nearest integer, ties upward;
Python breaks exact ties to even, but no value relevant to these claims
sits on a tie, and both conventions are monotone and fix 3-decimal
numbers, which is all the proofs use).

The stateful weather fetch (`fetch_weather_data`, with its 600-second
cache) is modelled by explicit state passing: a `CacheState` holds the
`last_weather_update` clock value and the cached snapshot, and the
non-deterministic outside world (HTTP outcome, random draws for the
simulated fallback, the current time) is passed in as parameters.  The
returned `Bool` records whether an outbound network call was made.
-/

namespace EnvRF

/-- Model of Python `round(x, 3)`: scale by 1000, round to the nearest
integer, and scale back. -/
def pyRound3 {α : Type} [LinearOrderedField α] [FloorRing α] (x : α) : α :=
  ((round (x * 1000) : ℤ) : α) / 1000

/-- A weather snapshot, as produced by `parse_weather_data` or
`generate_simulated_weather`.  `timestamp` models the capture time
(`datetime.now()`); `is_simulated` models presence of the `'simulated'`
key in the Python dict (absent ↦ `false`). -/
structure Weather where
  wind_speed : ℚ
  wind_direction : ℚ
  humidity : ℚ
  temperature : ℚ
  pressure : ℚ
  visibility : ℚ
  timestamp : ℚ
  location : String
  is_simulated : Bool

/-- Fixed location name returned by `get_current_location`. -/
def locationName : String := "San Diego Hillcrest, CA"

/-- The shape-relevant part of a decoded JSON body: each expected field
is present (`some`) or absent (`none`), mirroring the `.get(...)`
lookups in `parse_weather_data`. -/
structure WeatherJson where
  wind_speed : Option ℚ
  wind_deg : Option ℚ
  humidity : Option ℚ
  temp : Option ℚ
  pressure : Option ℚ
  visibility : Option ℚ

/-- A JSON body in which every expected field is missing (e.g. the
decoded body `\x7b\x7d`). -/
def emptyJson : WeatherJson := ⟨none, none, none, none, none, none⟩

/-- Embeds `parse_weather_data`: per-field defaults via `.get`, no
`'simulated'` key (so `is_simulated = false`). -/
def parse_weather_data (data : WeatherJson) (now : ℚ) : Weather where
  wind_speed := data.wind_speed.getD 0
  wind_direction := data.wind_deg.getD 0
  humidity := data.humidity.getD 50
  temperature := data.temp.getD 20
  pressure := data.pressure.getD 1013
  visibility := data.visibility.getD 10000 / 1000
  timestamp := now
  location := locationName
  is_simulated := false

/-- The random draws consumed by `generate_simulated_weather`
(`random.randint` / `random.uniform` results, the uniform draws taken
after their `round(..., 1)`). -/
structure SimDraw where
  base_wind_dir : ℤ
  wind_variation : ℤ
  wind_speed : ℚ
  humidity : ℤ
  temperature : ℚ
  pressure : ℤ
  visibility : ℚ

/-- Embeds `generate_simulated_weather`: simulated snapshot with the
`'simulated': True` marker. -/
def generate_simulated_weather (r : SimDraw) (now : ℚ) : Weather where
  wind_speed := r.wind_speed
  wind_direction := (((r.base_wind_dir + r.wind_variation) % 360 : ℤ) : ℚ)
  humidity := (r.humidity : ℚ)
  temperature := r.temperature
  pressure := (r.pressure : ℚ)
  visibility := r.visibility
  timestamp := now
  location := locationName
  is_simulated := true

/-- Outcome of the single HTTP attempt inside `fetch_weather_data`:
either `requests.get` (or `response.json()`) raised, or a response
arrived with a status code and a body (`none` = body not decodable as
JSON, in which case `response.json()` raises and the `except` path is
taken — both raising cases behave identically in the source). -/
inductive FetchOutcome where
  | exc : FetchOutcome
  | resp (status : ℕ) (body : Option WeatherJson) : FetchOutcome

/-- `true` exactly when the attempt yielded a usable live response:
HTTP 200 with a JSON-decodable body. -/
def liveOk : FetchOutcome → Bool
  | .exc => false
  | .resp status body => decide (status = 200) && body.isSome

/-- A fetch attempt that fails: an exception, a non-200 status, or a
200 response whose body is not decodable JSON. -/
def fetch_failure : FetchOutcome → Prop
  | .exc => True
  | .resp status body => status ≠ 200 ∨ body = none

/-- The in-memory cache of `EnvironmentalRFFactors`:
`self.last_weather_update` and `self.weather_cache` (`none` models the
initial empty dict, which is falsy in the cache test). -/
structure CacheState where
  last_weather_update : ℚ
  weather_cache : Option Weather

/-- The state set up by `__init__`. -/
def initState : CacheState := ⟨0, none⟩

/-- The body of `fetch_weather_data` past the cache test: one network
attempt; on HTTP 200 with decodable JSON the parsed snapshot is stored
in the cache, every other outcome falls back to
`generate_simulated_weather` and leaves the state unchanged.  The
`Bool` is `true`: a network call was made. -/
def attempt_fetch (st : CacheState) (now : ℚ) (outcome : FetchOutcome) (r : SimDraw) :
    Weather × CacheState × Bool :=
  match outcome with
  | .exc => (generate_simulated_weather r now, st, true)
  | .resp status body =>
    if status = 200 then
      match body with
      | some data =>
        let w := parse_weather_data data now
        (w, ⟨now, some w⟩, true)
      | none => (generate_simulated_weather r now, st, true)
    else
      (generate_simulated_weather r now, st, true)

/-- Embeds `fetch_weather_data`: return the cached snapshot when the
last update is younger than 600 seconds and the cache is nonempty,
otherwise attempt a fetch.  The `Bool` component records whether an
outbound network call was made. -/
def fetch_weather_data (st : CacheState) (now : ℚ) (outcome : FetchOutcome) (r : SimDraw) :
    Weather × CacheState × Bool :=
  match st.weather_cache with
  | some w =>
    if now - st.last_weather_update < 600 then (w, st, false)
    else attempt_fetch st now outcome r
  | none => attempt_fetch st now outcome r

/-- Degrees to radians, embedding `math.radians`. -/
noncomputable def radians (d : ℚ) : ℝ := (d : ℝ) * Real.pi / 180

/-- The unrounded `turbulence_factor` variable of
`calculate_wind_rf_impact`: `min(wind_speed / 10.0, 1.0)`. -/
def turbulence_factor_raw (w : Weather) : ℚ := min (w.wind_speed / 10) 1

/-- Result of `calculate_wind_rf_impact`.  `zone_factors` keeps the
insertion order `zone_0, zone_45, …, zone_315` of the Python dict. -/
structure WindImpact where
  turbulence_factor : ℚ
  primary_enhancement_direction : ℚ
  zone_factors : List (String × ℝ)
  overall_impact : ℚ

/-- The eight directional zone angles, `range(0, 360, 45)`. -/
def zoneAngles : List ℕ := [0, 45, 90, 135, 180, 225, 270, 315]

/-- The `alignment` variable of the zone loop in
`calculate_wind_rf_impact`: `cos(wind_rad - zone_rad)`. -/
noncomputable def wind_alignment (w : Weather) (zone_angle : ℕ) : ℝ :=
  Real.cos (radians w.wind_direction - radians (zone_angle : ℚ))

/-- One zone entry of `calculate_wind_rf_impact`: the wind / zone
alignment cosine picks the enhancement (toward the zone) or the
degradation (away from it) coefficient. -/
noncomputable def windZoneFactor (w : Weather) (zone_angle : ℕ) : ℝ :=
  if 0 < wind_alignment w zone_angle then
    pyRound3 (1 + wind_alignment w zone_angle * (turbulence_factor_raw w : ℝ) * 0.15)
  else
    pyRound3 (1 + wind_alignment w zone_angle * (turbulence_factor_raw w : ℝ) * 0.08)

/-- Embeds `calculate_wind_rf_impact`. -/
noncomputable def calculate_wind_rf_impact (w : Weather) : WindImpact where
  turbulence_factor := pyRound3 (turbulence_factor_raw w)
  primary_enhancement_direction := w.wind_direction
  zone_factors := zoneAngles.map fun z => ("zone_" ++ toString z, windZoneFactor w z)
  overall_impact := pyRound3 (1 + turbulence_factor_raw w * 0.1)

/-- Result of `calculate_humidity_rf_impact`. -/
structure HumidityImpact where
  humidity_factor : ℚ
  absorption_2_4ghz : ℚ
  absorption_5ghz : ℚ
  multipath_factor : ℚ
  range_factor : ℚ
  overall_impact : ℚ

/-- The unrounded `humidity_factor` variable: `humidity / 100.0`. -/
def humidity_factor_raw (w : Weather) : ℚ := w.humidity / 100

/-- The `temp_factor` variable of `calculate_humidity_rf_impact`:
`1.0 + ((temperature - 20) / 100.0)`. -/
def humidity_temp_factor (w : Weather) : ℚ := 1 + (w.temperature - 20) / 100

/-- Embeds `calculate_humidity_rf_impact`; each dict entry rounds the
corresponding unrounded local variable. -/
def calculate_humidity_rf_impact (w : Weather) : HumidityImpact :=
  let hf := humidity_factor_raw w
  let tf := humidity_temp_factor w
  { humidity_factor := pyRound3 hf
    absorption_2_4ghz := pyRound3 (hf * tf * 0.05)
    absorption_5ghz := pyRound3 (hf * tf * 0.12)
    multipath_factor := pyRound3 (1 + hf * 0.08)
    range_factor := pyRound3 (1 - hf * 0.06)
    overall_impact := pyRound3 ((1 - hf * 0.06) * (1 + hf * 0.08)) }

/-- Result of `calculate_atmospheric_ducting`. -/
structure DuctingImpact where
  ducting_probability : ℚ
  range_extension : ℚ
  pressure_factor : ℚ
  optimal_conditions : Bool

/-- The `pressure_gradient` variable:
`(pressure - 1013.25) / 1013.25`. -/
def pressure_gradient_raw (w : Weather) : ℚ := (w.pressure - 1013.25) / 1013.25

/-- The `temp_factor` variable of `calculate_atmospheric_ducting`:
`1.0 - (abs(temperature - 18) / 50.0)`. -/
def ducting_temp_factor (t : ℚ) : ℚ := 1 - |t - 18| / 50

/-- The `humidity_gradient` variable: `(humidity - 60) / 100.0`. -/
def humidity_gradient_raw (w : Weather) : ℚ := (w.humidity - 60) / 100

/-- The `ducting_conditions` weighted sum. -/
def ducting_conditions_raw (w : Weather) : ℚ :=
  |pressure_gradient_raw w| * 0.4 +
    ducting_temp_factor w.temperature * 0.3 +
    |humidity_gradient_raw w| * 0.3

/-- The `ducting_strength` variable: `max(0, min(ducting_conditions, 1.0))`. -/
def ducting_strength_raw (w : Weather) : ℚ := max 0 (min (ducting_conditions_raw w) 1)

/-- Embeds `calculate_atmospheric_ducting`. -/
def calculate_atmospheric_ducting (w : Weather) : DuctingImpact where
  ducting_probability := pyRound3 (ducting_strength_raw w)
  range_extension := pyRound3 (1 + ducting_strength_raw w * 0.35)
  pressure_factor := pyRound3 (pressure_gradient_raw w)
  optimal_conditions := decide (0.6 < ducting_strength_raw w)

/-- One comparison step of Python `max(items, key=lambda x: x[1])`:
keep the incumbent unless the candidate's second component is
strictly larger (so ties keep the earlier element). -/
def pickMax {κ β : Type} [LinearOrder β] (acc p : κ × β) : κ × β :=
  if acc.2 < p.2 then p else acc

/-- One comparison step of Python `min(items, key=lambda x: x[1])`. -/
def pickMin {κ β : Type} [LinearOrder β] (acc p : κ × β) : κ × β :=
  if p.2 < acc.2 then p else acc

/-- Embeds Python `max(items, key=lambda x: x[1])`: first element of
maximal second component; `none` models the `ValueError` raised on an
empty sequence. -/
def pyMaxBySnd {κ β : Type} [LinearOrder β] : List (κ × β) → Option (κ × β)
  | [] => none
  | x :: xs => some (xs.foldl pickMax x)

/-- Embeds Python `min(items, key=lambda x: x[1])`. -/
def pyMinBySnd {κ β : Type} [LinearOrder β] : List (κ × β) → Option (κ × β)
  | [] => none
  | x :: xs => some (xs.foldl pickMin x)

/-- Splits a character list on `'_'`, embedding Python `s.split('_')`. -/
def splitOnUnderscore : List Char → List (List Char)
  | [] => [[]]
  | c :: cs =>
    if c = '_' then [] :: splitOnUnderscore cs
    else
      match splitOnUnderscore cs with
      | [] => [[c]]
      | h :: t => (c :: h) :: t

/-- Decimal digits to a number, embedding Python `int(...)` on the
well-formed digit strings that occur as zone keys. -/
def digitsToNat : List Char → ℕ → ℕ
  | [], acc => acc
  | c :: cs, acc => digitsToNat cs (acc * 10 + (c.toNat - 48))

/-- Embeds `int(zone_key.split('_')[1])` for the `zone_<angle>` keys. -/
def parseZoneKey (s : String) : ℕ :=
  digitsToNat ((splitOnUnderscore s.data).getD 1 []) 0

/-- Result of `get_optimal_rf_directions`. -/
structure OptimalDirections where
  best_direction : ℕ
  best_enhancement : ℝ
  worst_direction : ℕ
  worst_degradation : ℝ
  ducting_active : Bool

/-- Embeds `get_optimal_rf_directions`.  The zone map produced by
`calculate_wind_rf_impact` always has 8 entries, so the `getD`
defaults (standing for Python's `ValueError` on an empty sequence) are
never taken on the source's call path. -/
noncomputable def get_optimal_rf_directions (wind_impact : WindImpact)
    (ducting_impact : DuctingImpact) : OptimalDirections :=
  let best_zone := (pyMaxBySnd wind_impact.zone_factors).getD ("", 0)
  let worst_zone := (pyMinBySnd wind_impact.zone_factors).getD ("", 0)
  { best_direction := parseZoneKey best_zone.1
    best_enhancement := best_zone.2
    worst_direction := parseZoneKey worst_zone.1
    worst_degradation := worst_zone.2
    ducting_active := ducting_impact.optimal_conditions }

/-- Result of `get_comprehensive_rf_environment`. -/
structure RFEnvironment where
  timestamp : ℚ
  location : String
  weather_conditions : Weather
  wind_rf_impact : WindImpact
  humidity_rf_impact : HumidityImpact
  atmospheric_ducting : DuctingImpact
  overall_rf_factor : ℚ
  range_modifier : ℚ
  optimal_directions : OptimalDirections

/-- The pure tail of `get_comprehensive_rf_environment` (everything
after the `fetch_weather_data` call), as a function of the fetched
snapshot. -/
noncomputable def assess_rf_environment (w : Weather) : RFEnvironment :=
  let wind_impact := calculate_wind_rf_impact w
  let humidity_impact := calculate_humidity_rf_impact w
  let ducting_impact := calculate_atmospheric_ducting w
  let overall_factor := wind_impact.overall_impact * 0.3 +
    humidity_impact.overall_impact * 0.4 + ducting_impact.range_extension * 0.3
  { timestamp := w.timestamp
    location := w.location
    weather_conditions := w
    wind_rf_impact := wind_impact
    humidity_rf_impact := humidity_impact
    atmospheric_ducting := ducting_impact
    overall_rf_factor := pyRound3 overall_factor
    range_modifier := pyRound3 overall_factor
    optimal_directions := get_optimal_rf_directions wind_impact ducting_impact }

/-- Embeds `get_comprehensive_rf_environment`: fetch (or reuse) the
weather snapshot, then assess it. -/
noncomputable def get_comprehensive_rf_environment (st : CacheState) (now : ℚ)
    (outcome : FetchOutcome) (r : SimDraw) : RFEnvironment × CacheState :=
  let res := fetch_weather_data st now outcome r
  (assess_rf_environment res.1, res.2.1)

/-! ### Helper lemmas -/

/-- Rounding to three decimals is monotone. -/
lemma pyRound3_mono {α : Type} [LinearOrderedField α] [FloorRing α] {x y : α}
    (h : x ≤ y) : pyRound3 x ≤ pyRound3 y := by
  have hr : round (x * 1000) ≤ round (y * 1000) := by
    rw [round_eq, round_eq]
    exact Int.floor_mono (by linarith)
  have hc : ((round (x * 1000) : ℤ) : α) ≤ ((round (y * 1000) : ℤ) : α) := by
    exact_mod_cast hr
  unfold pyRound3
  linarith

/-- A number with at most three decimal places is a fixed point of
`pyRound3`. -/
lemma pyRound3_fixed {α : Type} [LinearOrderedField α] [FloorRing α] (x : α) (n : ℤ)
    (h : x * 1000 = n) : pyRound3 x = x := by
  unfold pyRound3
  rw [h, round_intCast, div_eq_iff (by norm_num : (1000 : α) ≠ 0), h]

/-- `pyRound3` maps an interval with three-decimal endpoints into
itself. -/
lemma pyRound3_bounds {α : Type} [LinearOrderedField α] [FloorRing α] {a b x : α}
    (na nb : ℤ) (han : a * 1000 = na) (hbn : b * 1000 = nb)
    (hax : a ≤ x) (hxb : x ≤ b) : a ≤ pyRound3 x ∧ pyRound3 x ≤ b := by
  constructor
  · calc a = pyRound3 a := (pyRound3_fixed a na han).symm
    _ ≤ pyRound3 x := pyRound3_mono hax
  · calc pyRound3 x ≤ pyRound3 b := pyRound3_mono hxb
    _ = b := pyRound3_fixed b nb hbn

/-- The fold underlying `pyMaxBySnd` returns either its seed or a list
element, its value dominates the seed, and it dominates every list
element. -/
lemma foldl_pickMax_spec {κ β : Type} [LinearOrder β] (xs : List (κ × β)) (a : κ × β) :
    (xs.foldl pickMax a = a ∨ xs.foldl pickMax a ∈ xs) ∧
    a.2 ≤ (xs.foldl pickMax a).2 ∧
    ∀ p ∈ xs, p.2 ≤ (xs.foldl pickMax a).2 := by
  induction xs generalizing a with
  | nil => simp
  | cons y ys ih =>
    obtain ⟨hmem, hle, hall⟩ := ih (pickMax a y)
    have hfold : (y :: ys).foldl pickMax a = ys.foldl pickMax (pickMax a y) := rfl
    have hcases : pickMax a y = y ∨ pickMax a y = a := by
      unfold pickMax
      split <;> simp
    have haley : a.2 ≤ (pickMax a y).2 := by
      unfold pickMax
      split
      · exact le_of_lt (by assumption)
      · exact le_rfl
    have hyley : y.2 ≤ (pickMax a y).2 := by
      unfold pickMax
      split
      · exact le_rfl
      · exact le_of_not_lt (by assumption)
    refine ⟨?_, ?_, ?_⟩
    · rw [hfold]
      rcases hmem with h | h
      · rcases hcases with h2 | h2
        · right
          rw [h, h2]
          exact List.mem_cons_self _ _
        · left
          rw [h, h2]
      · right
        exact List.mem_cons_of_mem _ h
    · rw [hfold]
      exact le_trans haley hle
    · intro p hp
      rw [hfold]
      rcases List.mem_cons.mp hp with rfl | hp
      · exact le_trans hyley hle
      · exact hall p hp

/-- Counterpart of `foldl_pickMax_spec` for `pickMin`. -/
lemma foldl_pickMin_spec {κ β : Type} [LinearOrder β] (xs : List (κ × β)) (a : κ × β) :
    (xs.foldl pickMin a = a ∨ xs.foldl pickMin a ∈ xs) ∧
    (xs.foldl pickMin a).2 ≤ a.2 ∧
    ∀ p ∈ xs, (xs.foldl pickMin a).2 ≤ p.2 := by
  induction xs generalizing a with
  | nil => simp
  | cons y ys ih =>
    obtain ⟨hmem, hle, hall⟩ := ih (pickMin a y)
    have hfold : (y :: ys).foldl pickMin a = ys.foldl pickMin (pickMin a y) := rfl
    have hcases : pickMin a y = y ∨ pickMin a y = a := by
      unfold pickMin
      split <;> simp
    have haley : (pickMin a y).2 ≤ a.2 := by
      unfold pickMin
      split
      · exact le_of_lt (by assumption)
      · exact le_rfl
    have hyley : (pickMin a y).2 ≤ y.2 := by
      unfold pickMin
      split
      · exact le_rfl
      · exact le_of_not_lt (by assumption)
    refine ⟨?_, ?_, ?_⟩
    · rw [hfold]
      rcases hmem with h | h
      · rcases hcases with h2 | h2
        · right
          rw [h, h2]
          exact List.mem_cons_self _ _
        · left
          rw [h, h2]
      · right
        exact List.mem_cons_of_mem _ h
    · rw [hfold]
      exact le_trans hle haley
    · intro p hp
      rw [hfold]
      rcases List.mem_cons.mp hp with rfl | hp
      · exact le_trans hle hyley
      · exact hall p hp

/-- `pyMaxBySnd` on a nonempty list returns an element whose second
component dominates every entry. -/
lemma pyMaxBySnd_spec {κ β : Type} [LinearOrder β] (x : κ × β) (xs : List (κ × β)) :
    ∃ m, pyMaxBySnd (x :: xs) = some m ∧ m ∈ x :: xs ∧ ∀ p ∈ x :: xs, p.2 ≤ m.2 := by
  obtain ⟨hmem, hle, hall⟩ := foldl_pickMax_spec xs x
  refine ⟨xs.foldl pickMax x, rfl, ?_, ?_⟩
  · rcases hmem with h | h
    · rw [h]
      exact List.mem_cons_self _ _
    · exact List.mem_cons_of_mem _ h
  · intro p hp
    rcases List.mem_cons.mp hp with rfl | hp
    · exact hle
    · exact hall p hp

/-- `pyMinBySnd` on a nonempty list returns an element whose second
component is dominated by every entry. -/
lemma pyMinBySnd_spec {κ β : Type} [LinearOrder β] (x : κ × β) (xs : List (κ × β)) :
    ∃ m, pyMinBySnd (x :: xs) = some m ∧ m ∈ x :: xs ∧ ∀ p ∈ x :: xs, m.2 ≤ p.2 := by
  obtain ⟨hmem, hle, hall⟩ := foldl_pickMin_spec xs x
  refine ⟨xs.foldl pickMin x, rfl, ?_, ?_⟩
  · rcases hmem with h | h
    · rw [h]
      exact List.mem_cons_self _ _
    · exact List.mem_cons_of_mem _ h
  · intro p hp
    rcases List.mem_cons.mp hp with rfl | hp
    · exact hle
    · exact hall p hp

/-- The turbulence factor is nonnegative for nonnegative wind speed. -/
lemma turbulence_factor_raw_nonneg (w : Weather) (h : 0 ≤ w.wind_speed) :
    0 ≤ turbulence_factor_raw w :=
  le_min (div_nonneg h (by norm_num)) zero_le_one

/-- The turbulence factor never exceeds 1. -/
lemma turbulence_factor_raw_le_one (w : Weather) : turbulence_factor_raw w ≤ 1 :=
  min_le_right _ _

/-- Every zone factor lies in `[0.92, 1.15]` when the wind speed is
nonnegative. -/
lemma windZoneFactor_bounds (w : Weather) (z : ℕ) (hws : 0 ≤ w.wind_speed) :
    (0.92 : ℝ) ≤ windZoneFactor w z ∧ windZoneFactor w z ≤ 1.15 := by
  have ht0 : (0 : ℝ) ≤ (turbulence_factor_raw w : ℝ) := by
    exact_mod_cast turbulence_factor_raw_nonneg w hws
  have ht1 : (turbulence_factor_raw w : ℝ) ≤ 1 := by
    exact_mod_cast turbulence_factor_raw_le_one w
  unfold windZoneFactor
  set a := wind_alignment w z with ha
  have ha1 : a ≤ 1 := Real.cos_le_one _
  have ham1 : -1 ≤ a := Real.neg_one_le_cos _
  set t := (turbulence_factor_raw w : ℝ)
  split
  · next hpos =>
    have hat0 : 0 ≤ a * t := mul_nonneg (le_of_lt hpos) ht0
    have hat1 : a * t ≤ 1 := mul_le_one₀ ha1 ht0 ht1
    have := pyRound3_bounds (α := ℝ) (a := 1) (b := 1.15) (x := 1 + a * t * 0.15)
      1000 1150 (by norm_num) (by norm_num) (by nlinarith) (by nlinarith)
    exact ⟨by linarith [this.1], this.2⟩
  · next hneg =>
    push_neg at hneg
    have hatm : -1 ≤ a * t := by nlinarith
    have hat0 : a * t ≤ 0 := mul_nonpos_of_nonpos_of_nonneg hneg ht0
    have := pyRound3_bounds (α := ℝ) (a := 0.92) (b := 1.15) (x := 1 + a * t * 0.08)
      920 1150 (by norm_num) (by norm_num) (by nlinarith) (by nlinarith)
    exact this

/-- The clamped ducting strength lies in `[0, 1]`. -/
lemma ducting_strength_raw_bounds (w : Weather) :
    0 ≤ ducting_strength_raw w ∧ ducting_strength_raw w ≤ 1 :=
  ⟨le_max_left _ _, max_le (by norm_num) (min_le_right _ _)⟩

/-! ### Claim theorems -/

/-- C1: for every valid snapshot (humidity in `[0, 100]`, nonnegative
wind speed, arbitrary direction, temperature and pressure), the wind
estimator's `overall_impact` lies in `[1.0, 1.10]`, each of its zone
factors lies in `[1 - 0.15, 1 + 0.15]`, the humidity estimator's
`range_factor` lies in `[0.94, 1.0]`, and the ducting estimator's
`range_extension` lies in `[1.0, 1.35]`. -/
theorem estimator_factors_within_bounds (w : Weather)
    (hh0 : 0 ≤ w.humidity) (hh1 : w.humidity ≤ 100) (hws : 0 ≤ w.wind_speed) :
    (1 ≤ (calculate_wind_rf_impact w).overall_impact ∧
      (calculate_wind_rf_impact w).overall_impact ≤ 1.10) ∧
    (∀ p ∈ (calculate_wind_rf_impact w).zone_factors,
      (1 - 0.15 : ℝ) ≤ p.2 ∧ p.2 ≤ 1 + 0.15) ∧
    (0.94 ≤ (calculate_humidity_rf_impact w).range_factor ∧
      (calculate_humidity_rf_impact w).range_factor ≤ 1.0) ∧
    (1 ≤ (calculate_atmospheric_ducting w).range_extension ∧
      (calculate_atmospheric_ducting w).range_extension ≤ 1.35) := by
  have ht0 := turbulence_factor_raw_nonneg w hws
  have ht1 := turbulence_factor_raw_le_one w
  refine ⟨?_, ?_, ?_, ?_⟩
  · exact pyRound3_bounds (α := ℚ) 1000 1100 (by norm_num) (by norm_num)
      (by nlinarith) (by nlinarith)
  · intro p hp
    simp only [calculate_wind_rf_impact, zoneAngles, List.map, List.mem_cons,
      List.not_mem_nil, or_false] at hp
    have : ∃ z : ℕ, p.2 = windZoneFactor w z := by
      rcases hp with h | h | h | h | h | h | h | h <;> exact ⟨_, by rw [h]⟩
    obtain ⟨z, hz⟩ := this
    rw [hz]
    have := windZoneFactor_bounds w z hws
    constructor
    · linarith [this.1]
    · linarith [this.2]
  · have hf0 : 0 ≤ humidity_factor_raw w := by
      unfold humidity_factor_raw
      linarith
    have hf1 : humidity_factor_raw w ≤ 1 := by
      unfold humidity_factor_raw
      linarith
    exact pyRound3_bounds (α := ℚ) 940 1000 (by norm_num) (by norm_num)
      (by nlinarith) (by nlinarith)
  · have hs := ducting_strength_raw_bounds w
    exact pyRound3_bounds (α := ℚ) 1000 1350 (by norm_num) (by norm_num)
      (by nlinarith [hs.1]) (by nlinarith [hs.2])

/-- Witness for C1 at the snapshot
`(wind 5 m/s at 270°, humidity 70, 20°C, 1013.25 hPa)`. -/
theorem estimator_factors_within_bounds_witness :
    ((0 : ℚ) ≤ 70 ∧ (70 : ℚ) ≤ 100 ∧ (0 : ℚ) ≤ 5) ∧
    (1 ≤ (calculate_wind_rf_impact ⟨5, 270, 70, 20, 1013.25, 10, 0, locationName, false⟩).overall_impact ∧
      (calculate_wind_rf_impact ⟨5, 270, 70, 20, 1013.25, 10, 0, locationName, false⟩).overall_impact ≤ 1.10) ∧
    (∀ p ∈ (calculate_wind_rf_impact ⟨5, 270, 70, 20, 1013.25, 10, 0, locationName, false⟩).zone_factors,
      (1 - 0.15 : ℝ) ≤ p.2 ∧ p.2 ≤ 1 + 0.15) ∧
    (0.94 ≤ (calculate_humidity_rf_impact ⟨5, 270, 70, 20, 1013.25, 10, 0, locationName, false⟩).range_factor ∧
      (calculate_humidity_rf_impact ⟨5, 270, 70, 20, 1013.25, 10, 0, locationName, false⟩).range_factor ≤ 1.0) ∧
    (1 ≤ (calculate_atmospheric_ducting ⟨5, 270, 70, 20, 1013.25, 10, 0, locationName, false⟩).range_extension ∧
      (calculate_atmospheric_ducting ⟨5, 270, 70, 20, 1013.25, 10, 0, locationName, false⟩).range_extension ≤ 1.35) := by
  refine ⟨⟨by norm_num, by norm_num, by norm_num⟩, ?_⟩
  have h := estimator_factors_within_bounds ⟨5, 270, 70, 20, 1013.25, 10, 0, locationName, false⟩
    (by norm_num) (by norm_num) (by norm_num)
  exact ⟨h.1, h.2.1, h.2.2.1, h.2.2.2⟩

/-- A successful attempt parses and caches the snapshot. -/
lemma attempt_fetch_success (st : CacheState) (now : ℚ) (d : WeatherJson) (r : SimDraw) :
    attempt_fetch st now (FetchOutcome.resp 200 (some d)) r =
      (parse_weather_data d now, ⟨now, some (parse_weather_data d now)⟩, true) := rfl

/-- A failing attempt returns the simulated snapshot and leaves the
cache state unchanged. -/
lemma attempt_fetch_failure (st : CacheState) (now : ℚ) (o : FetchOutcome) (r : SimDraw)
    (hfail : fetch_failure o) :
    attempt_fetch st now o r = (generate_simulated_weather r now, st, true) := by
  rcases o with _ | ⟨status, body⟩
  · rfl
  · unfold fetch_failure at hfail
    rcases hfail with hs | hb
    · simp only [attempt_fetch, if_neg hs]
    · subst hb
      by_cases hs : status = 200
      · subst hs
        rfl
      · simp only [attempt_fetch, if_neg hs]

/-- Every attempt makes an outbound network call. -/
lemma attempt_fetch_network (st : CacheState) (now : ℚ) (o : FetchOutcome) (r : SimDraw) :
    (attempt_fetch st now o r).2.2 = true := by
  rcases o with _ | ⟨status, body⟩
  · rfl
  · by_cases hs : status = 200
    · subst hs
      rcases body with _ | d <;> rfl
    · simp only [attempt_fetch, if_neg hs]

/-- On a cache miss (empty cache, or an update at least 600 seconds
old) `fetch_weather_data` runs the attempt. -/
lemma fetch_weather_data_miss (st : CacheState) (now : ℚ) (o : FetchOutcome) (r : SimDraw)
    (hmiss : st.weather_cache = none ∨ 600 ≤ now - st.last_weather_update) :
    fetch_weather_data st now o r = attempt_fetch st now o r := by
  rcases hmiss with hc | ht
  · cases hsome : st.weather_cache with
    | none => simp only [fetch_weather_data, hsome]
    | some w =>
      rw [hsome] at hc
      exact absurd hc (by simp)
  · cases hsome : st.weather_cache with
    | none => simp only [fetch_weather_data, hsome]
    | some w => simp only [fetch_weather_data, hsome, if_neg (not_lt.mpr ht)]

/-- On a cache hit `fetch_weather_data` returns the cached snapshot,
leaves the state unchanged and makes no network call. -/
lemma fetch_weather_data_hit (t : ℚ) (w : Weather) (now : ℚ) (o : FetchOutcome) (r : SimDraw)
    (h : now - t < 600) :
    fetch_weather_data ⟨t, some w⟩ now o r = (w, ⟨t, some w⟩, false) := by
  simp only [fetch_weather_data]
  rw [if_pos h]

/-- C2 counterexample: an HTTP 200 response whose JSON body decodes
but carries none of the expected fields (a shape-deviant, hence
malformed, payload) is not routed to the simulated fallback: the
snapshot is built from per-field defaults and its `is_simulated` flag
is `false`, although a network fetch was attempted. -/
theorem malformed_payload_not_simulated :
    (fetch_weather_data initState 1000 (FetchOutcome.resp 200 (some emptyJson))
      ⟨260, 0, 4, 70, 22, 1015, 15⟩).1.is_simulated = false ∧
    (fetch_weather_data initState 1000 (FetchOutcome.resp 200 (some emptyJson))
      ⟨260, 0, 4, 70, 22, 1015, 15⟩).1.wind_speed = 0 ∧
    (fetch_weather_data initState 1000 (FetchOutcome.resp 200 (some emptyJson))
      ⟨260, 0, 4, 70, 22, 1015, 15⟩).1.humidity = 50 ∧
    (fetch_weather_data initState 1000 (FetchOutcome.resp 200 (some emptyJson))
      ⟨260, 0, 4, 70, 22, 1015, 15⟩).2.2 = true := by
  exact ⟨rfl, rfl, rfl, rfl⟩

/-- C2 (amended): when the cache does not serve the call, every
fetch failure — an exception (which covers timeouts and undecodable
JSON bodies) or a non-200 status — yields exactly the simulated
snapshot, whose `is_simulated` flag is `true`; the function is total,
so no exception escapes. -/
theorem fetch_failure_returns_simulated (st : CacheState) (now : ℚ)
    (o : FetchOutcome) (r : SimDraw)
    (hmiss : st.weather_cache = none ∨ 600 ≤ now - st.last_weather_update)
    (hfail : fetch_failure o) :
    (fetch_weather_data st now o r).1 = generate_simulated_weather r now ∧
    (fetch_weather_data st now o r).1.is_simulated = true := by
  rw [fetch_weather_data_miss st now o r hmiss, attempt_fetch_failure st now o r hfail]
  exact ⟨rfl, rfl⟩

/-- Witness for C2 (amended): exception outcome against the initial
(empty-cache) state. -/
theorem fetch_failure_returns_simulated_witness :
    (initState.weather_cache = none ∨ 600 ≤ (1000 : ℚ) - initState.last_weather_update) ∧
    fetch_failure FetchOutcome.exc ∧
    (fetch_weather_data initState 1000 FetchOutcome.exc ⟨260, 0, 4, 70, 22, 1015, 15⟩).1 =
      generate_simulated_weather ⟨260, 0, 4, 70, 22, 1015, 15⟩ 1000 ∧
    (fetch_weather_data initState 1000 FetchOutcome.exc ⟨260, 0, 4, 70, 22, 1015, 15⟩).1.is_simulated = true := by
  refine ⟨Or.inl rfl, trivial, ?_⟩
  exact fetch_failure_returns_simulated initState 1000 FetchOutcome.exc
    ⟨260, 0, 4, 70, 22, 1015, 15⟩ (Or.inl rfl) trivial

/-- C3 counterexample: two failing calls 1 second apart, starting from
the initial state.  The first call falls back to simulated data but
does not populate the cache, so the second call makes another outbound
network attempt and returns a snapshot with a different `captured_at`
timestamp — refuting both "at most one outbound call per 600-second
window" and "same snapshot regardless of whether the first call fell
back to simulated data". -/
theorem cache_counterexample :
    (fetch_weather_data initState 1000 FetchOutcome.exc ⟨260, 0, 4, 70, 22, 1015, 15⟩).2.2 = true ∧
    (fetch_weather_data initState 1000 FetchOutcome.exc ⟨260, 0, 4, 70, 22, 1015, 15⟩).2.1 = initState ∧
    (fetch_weather_data initState 1000 FetchOutcome.exc ⟨260, 0, 4, 70, 22, 1015, 15⟩).1.timestamp = 1000 ∧
    (fetch_weather_data
      (fetch_weather_data initState 1000 FetchOutcome.exc ⟨260, 0, 4, 70, 22, 1015, 15⟩).2.1
      1001 FetchOutcome.exc ⟨250, 5, 3, 60, 25, 1013, 12⟩).2.2 = true ∧
    (fetch_weather_data
      (fetch_weather_data initState 1000 FetchOutcome.exc ⟨260, 0, 4, 70, 22, 1015, 15⟩).2.1
      1001 FetchOutcome.exc ⟨250, 5, 3, 60, 25, 1013, 12⟩).1.timestamp = 1001 ∧
    ((1001 : ℚ) ≠ 1000) ∧ ((1001 : ℚ) - 1000 < 600) := by
  refine ⟨rfl, rfl, rfl, rfl, rfl, by norm_num, by norm_num⟩

/-- C3 (amended): after a *successful* live fetch, any call within
600 seconds returns the identical cached snapshot (same `captured_at`
timestamp), makes no network call, and leaves the state unchanged; and
any call made 600 or more seconds after the last cache update performs
a new outbound fetch attempt. -/
theorem cache_behavior (st st2 : CacheState) (now1 now2 now3 : ℚ)
    (j : WeatherJson) (r1 r2 r3 : SimDraw) (o2 o3 : FetchOutcome)
    (hmiss : st.weather_cache = none ∨ 600 ≤ now1 - st.last_weather_update)
    (hfresh : now2 - now1 < 600)
    (hexp : 600 ≤ now3 - st2.last_weather_update) :
    (fetch_weather_data
        (fetch_weather_data st now1 (FetchOutcome.resp 200 (some j)) r1).2.1
        now2 o2 r2).1 =
      (fetch_weather_data st now1 (FetchOutcome.resp 200 (some j)) r1).1 ∧
    (fetch_weather_data
        (fetch_weather_data st now1 (FetchOutcome.resp 200 (some j)) r1).2.1
        now2 o2 r2).1.timestamp = now1 ∧
    (fetch_weather_data
        (fetch_weather_data st now1 (FetchOutcome.resp 200 (some j)) r1).2.1
        now2 o2 r2).2.2 = false ∧
    (fetch_weather_data
        (fetch_weather_data st now1 (FetchOutcome.resp 200 (some j)) r1).2.1
        now2 o2 r2).2.1 =
      (fetch_weather_data st now1 (FetchOutcome.resp 200 (some j)) r1).2.1 ∧
    (fetch_weather_data st2 now3 o3 r3).2.2 = true := by
  have hfirst : fetch_weather_data st now1 (FetchOutcome.resp 200 (some j)) r1 =
      (parse_weather_data j now1, ⟨now1, some (parse_weather_data j now1)⟩, true) := by
    rw [fetch_weather_data_miss st now1 _ r1 hmiss, attempt_fetch_success]
  have hts : (parse_weather_data j now1).timestamp = now1 := rfl
  rw [hfirst]
  rw [fetch_weather_data_hit now1 (parse_weather_data j now1) now2 o2 r2 hfresh]
  refine ⟨rfl, rfl, rfl, rfl, ?_⟩
  rw [fetch_weather_data_miss st2 now3 o3 r3 (Or.inr hexp)]
  exact attempt_fetch_network st2 now3 o3 r3

/-- Witness for C3 (amended): a successful fetch at time 700 from the
initial state, re-read at time 800, and an expired state re-fetched at
time 1300. -/
theorem cache_behavior_witness :
    (initState.weather_cache = none ∨ 600 ≤ (700 : ℚ) - initState.last_weather_update) ∧
    ((800 : ℚ) - 700 < 600) ∧
    (600 ≤ (1300 : ℚ) - (CacheState.mk 700 none).last_weather_update) ∧
    (fetch_weather_data
        (fetch_weather_data initState 700 (FetchOutcome.resp 200 (some emptyJson))
          ⟨260, 0, 4, 70, 22, 1015, 15⟩).2.1
        800 FetchOutcome.exc ⟨250, 5, 3, 60, 25, 1013, 12⟩).1 =
      (fetch_weather_data initState 700 (FetchOutcome.resp 200 (some emptyJson))
        ⟨260, 0, 4, 70, 22, 1015, 15⟩).1 ∧
    (fetch_weather_data
        (fetch_weather_data initState 700 (FetchOutcome.resp 200 (some emptyJson))
          ⟨260, 0, 4, 70, 22, 1015, 15⟩).2.1
        800 FetchOutcome.exc ⟨250, 5, 3, 60, 25, 1013, 12⟩).1.timestamp = 700 ∧
    (fetch_weather_data
        (fetch_weather_data initState 700 (FetchOutcome.resp 200 (some emptyJson))
          ⟨260, 0, 4, 70, 22, 1015, 15⟩).2.1
        800 FetchOutcome.exc ⟨250, 5, 3, 60, 25, 1013, 12⟩).2.2 = false ∧
    (fetch_weather_data (CacheState.mk 700 none) 1300 FetchOutcome.exc
      ⟨250, 5, 3, 60, 25, 1013, 12⟩).2.2 = true := by
  refine ⟨Or.inl rfl, by norm_num, by norm_num, ?_⟩
  have h := cache_behavior initState (CacheState.mk 700 none) 700 800 1300 emptyJson
    ⟨260, 0, 4, 70, 22, 1015, 15⟩ ⟨250, 5, 3, 60, 25, 1013, 12⟩ ⟨250, 5, 3, 60, 25, 1013, 12⟩
    FetchOutcome.exc FetchOutcome.exc (Or.inl rfl) (by norm_num) (by norm_num)
  exact ⟨h.1, h.2.1, h.2.2.1, h.2.2.2.2⟩

/-- C4: in every assessment, the overall factor is the fixed weighted
sum of the three estimator outputs (wind 0.3, humidity 0.4, ducting
0.3), rounded to three decimals on output like every other result
field, and `ducting_active` carries the ducting estimator's
`optimal_conditions` verbatim. -/
theorem overall_factor_weighted_sum (w : Weather) :
    (assess_rf_environment w).overall_rf_factor =
      pyRound3 ((calculate_wind_rf_impact w).overall_impact * 0.3 +
        (calculate_humidity_rf_impact w).overall_impact * 0.4 +
        (calculate_atmospheric_ducting w).range_extension * 0.3) ∧
    (assess_rf_environment w).optimal_directions.ducting_active =
      (calculate_atmospheric_ducting w).optimal_conditions :=
  ⟨rfl, rfl⟩

/-- C10: the `overall_rf_factor` and `range_modifier` result fields of
every assessment are the same rounded weighted sum and can never
differ. -/
theorem overall_factor_eq_range_modifier (w : Weather) :
    (assess_rf_environment w).overall_rf_factor = (assess_rf_environment w).range_modifier :=
  rfl

/-- C9: for every input snapshot the zone map has exactly 8 entries,
keyed `zone_0`, `zone_45`, …, `zone_315` in order. -/
theorem zone_factor_keys (w : Weather) :
    ((calculate_wind_rf_impact w).zone_factors).map Prod.fst =
      ["zone_0", "zone_45", "zone_90", "zone_135", "zone_180", "zone_225", "zone_270",
        "zone_315"] ∧
    ((calculate_wind_rf_impact w).zone_factors).length = 8 := by
  constructor
  · simp only [calculate_wind_rf_impact, zoneAngles, List.map]
    decide
  · rfl

/-- The example snapshot of the spec's scenario: wind 5 m/s at 270°,
humidity 70 %, 20 °C, 1013.25 hPa. -/
def exampleSnapshot : Weather := ⟨5, 270, 70, 20, 1013.25, 10, 0, locationName, false⟩

/-- At the example snapshot the 270° sector is perfectly wind-aligned:
`cos 0 = 1`, so its factor is `1 + 1 × 0.5 × 0.15 = 1.075`. -/
lemma windZone270_example : windZoneFactor exampleSnapshot 270 = 1.075 := by
  have h1 : radians exampleSnapshot.wind_direction - radians ((270 : ℕ) : ℚ) = 0 := by
    simp [radians, exampleSnapshot]
  simp only [windZoneFactor, wind_alignment, h1, Real.cos_zero]
  norm_num [turbulence_factor_raw, exampleSnapshot, pyRound3, round_eq]

/-- At the example snapshot the 90° sector is perfectly
counter-aligned: `cos π = −1`, so its factor is
`1 + (−1) × 0.5 × 0.08 = 0.96`. -/
lemma windZone90_example : windZoneFactor exampleSnapshot 90 = 0.96 := by
  have h1 : radians exampleSnapshot.wind_direction - radians ((90 : ℕ) : ℚ) = Real.pi := by
    simp only [radians, exampleSnapshot]
    push_cast
    field_simp
    ring
  simp only [windZoneFactor, wind_alignment, h1, Real.cos_pi]
  norm_num [turbulence_factor_raw, exampleSnapshot, pyRound3, round_eq]

/-- C5: the spec's worked example.  At wind 5 m/s from 270°, humidity
70 %, 20 °C, 1013.25 hPa: `turbulence_factor = 0.5`, the 270° zone
factor is 1.075, the 90° zone factor is 0.96, `humidity_factor = 0.7`,
the internal `temp_factor` is 1.0, `absorption_2_4ghz = 0.035` and
`range_factor = 0.958`. -/
theorem example_scenario :
    (calculate_wind_rf_impact exampleSnapshot).turbulence_factor = 0.5 ∧
    ((calculate_wind_rf_impact exampleSnapshot).zone_factors).lookup "zone_270" =
      some (1.075 : ℝ) ∧
    ((calculate_wind_rf_impact exampleSnapshot).zone_factors).lookup "zone_90" =
      some (0.96 : ℝ) ∧
    (calculate_humidity_rf_impact exampleSnapshot).humidity_factor = 0.7 ∧
    humidity_temp_factor exampleSnapshot = 1.0 ∧
    (calculate_humidity_rf_impact exampleSnapshot).absorption_2_4ghz = 0.035 ∧
    (calculate_humidity_rf_impact exampleSnapshot).range_factor = 0.958 := by
  refine ⟨?_, ?_, ?_, ?_, ?_, ?_, ?_⟩
  · norm_num [calculate_wind_rf_impact, turbulence_factor_raw, exampleSnapshot, pyRound3,
      round_eq, min_def]
  · simp only [calculate_wind_rf_impact, zoneAngles, List.map, List.lookup,
      (by decide : ("zone_270" == "zone_" ++ toString 0) = false),
      (by decide : ("zone_270" == "zone_" ++ toString 45) = false),
      (by decide : ("zone_270" == "zone_" ++ toString 90) = false),
      (by decide : ("zone_270" == "zone_" ++ toString 135) = false),
      (by decide : ("zone_270" == "zone_" ++ toString 180) = false),
      (by decide : ("zone_270" == "zone_" ++ toString 225) = false),
      (by decide : ("zone_270" == "zone_" ++ toString 270) = true)]
    rw [windZone270_example]
  · simp only [calculate_wind_rf_impact, zoneAngles, List.map, List.lookup,
      (by decide : ("zone_90" == "zone_" ++ toString 0) = false),
      (by decide : ("zone_90" == "zone_" ++ toString 45) = false),
      (by decide : ("zone_90" == "zone_" ++ toString 90) = true)]
    rw [windZone90_example]
  · norm_num [calculate_humidity_rf_impact, humidity_factor_raw, exampleSnapshot, pyRound3,
      round_eq]
  · norm_num [humidity_temp_factor, exampleSnapshot]
  · norm_num [calculate_humidity_rf_impact, humidity_factor_raw, humidity_temp_factor,
      exampleSnapshot, pyRound3, round_eq]
  · norm_num [calculate_humidity_rf_impact, humidity_factor_raw, exampleSnapshot, pyRound3,
      round_eq]

/-- The `zone_<angle>` key of every zone entry round-trips through
`parseZoneKey`. -/
lemma zone_key_roundtrip : ∀ z ∈ zoneAngles, parseZoneKey ("zone_" ++ toString z) = z := by
  decide

/-- C6: the aggregator's best direction names an entry of the zone map
whose factor is its `best_enhancement`, which dominates every zone
factor; dually for the worst direction. -/
theorem optimal_directions_extremal (w : Weather) (d : DuctingImpact) :
    (("zone_" ++ toString (get_optimal_rf_directions (calculate_wind_rf_impact w) d).best_direction,
        (get_optimal_rf_directions (calculate_wind_rf_impact w) d).best_enhancement) ∈
      (calculate_wind_rf_impact w).zone_factors ∧
      ∀ p ∈ (calculate_wind_rf_impact w).zone_factors,
        p.2 ≤ (get_optimal_rf_directions (calculate_wind_rf_impact w) d).best_enhancement) ∧
    (("zone_" ++ toString (get_optimal_rf_directions (calculate_wind_rf_impact w) d).worst_direction,
        (get_optimal_rf_directions (calculate_wind_rf_impact w) d).worst_degradation) ∈
      (calculate_wind_rf_impact w).zone_factors ∧
      ∀ p ∈ (calculate_wind_rf_impact w).zone_factors,
        (get_optimal_rf_directions (calculate_wind_rf_impact w) d).worst_degradation ≤ p.2) := by
  obtain ⟨m, hm, hmmem, hmall⟩ := pyMaxBySnd_spec ("zone_" ++ toString 0, windZoneFactor w 0)
    [("zone_" ++ toString 45, windZoneFactor w 45), ("zone_" ++ toString 90, windZoneFactor w 90),
      ("zone_" ++ toString 135, windZoneFactor w 135),
      ("zone_" ++ toString 180, windZoneFactor w 180),
      ("zone_" ++ toString 225, windZoneFactor w 225),
      ("zone_" ++ toString 270, windZoneFactor w 270),
      ("zone_" ++ toString 315, windZoneFactor w 315)]
  obtain ⟨n, hn, hnmem, hnall⟩ := pyMinBySnd_spec ("zone_" ++ toString 0, windZoneFactor w 0)
    [("zone_" ++ toString 45, windZoneFactor w 45), ("zone_" ++ toString 90, windZoneFactor w 90),
      ("zone_" ++ toString 135, windZoneFactor w 135),
      ("zone_" ++ toString 180, windZoneFactor w 180),
      ("zone_" ++ toString 225, windZoneFactor w 225),
      ("zone_" ++ toString 270, windZoneFactor w 270),
      ("zone_" ++ toString 315, windZoneFactor w 315)]
  have hzf : (calculate_wind_rf_impact w).zone_factors =
      ("zone_" ++ toString 0, windZoneFactor w 0) ::
        [("zone_" ++ toString 45, windZoneFactor w 45),
          ("zone_" ++ toString 90, windZoneFactor w 90),
          ("zone_" ++ toString 135, windZoneFactor w 135),
          ("zone_" ++ toString 180, windZoneFactor w 180),
          ("zone_" ++ toString 225, windZoneFactor w 225),
          ("zone_" ++ toString 270, windZoneFactor w 270),
          ("zone_" ++ toString 315, windZoneFactor w 315)] := rfl
  have hbd : (get_optimal_rf_directions (calculate_wind_rf_impact w) d).best_direction =
      parseZoneKey m.1 := by
    simp only [get_optimal_rf_directions, hzf, hm, Option.getD_some]
  have hbe : (get_optimal_rf_directions (calculate_wind_rf_impact w) d).best_enhancement =
      m.2 := by
    simp only [get_optimal_rf_directions, hzf, hm, Option.getD_some]
  have hwd : (get_optimal_rf_directions (calculate_wind_rf_impact w) d).worst_direction =
      parseZoneKey n.1 := by
    simp only [get_optimal_rf_directions, hzf, hn, Option.getD_some]
  have hwde : (get_optimal_rf_directions (calculate_wind_rf_impact w) d).worst_degradation =
      n.2 := by
    simp only [get_optimal_rf_directions, hzf, hn, Option.getD_some]
  have hkey : ∀ p ∈ (calculate_wind_rf_impact w).zone_factors,
      "zone_" ++ toString (parseZoneKey p.1) = p.1 := by
    intro p hp
    have hp2 : p ∈ zoneAngles.map (fun z => ("zone_" ++ toString z, windZoneFactor w z)) := hp
    obtain ⟨z, hz, rfl⟩ := List.mem_map.mp hp2
    show "zone_" ++ toString (parseZoneKey ("zone_" ++ toString z)) = "zone_" ++ toString z
    rw [zone_key_roundtrip z hz]
  refine ⟨⟨?_, ?_⟩, ?_, ?_⟩
  · rw [hbd, hbe, hkey m (by rw [hzf]; exact hmmem), Prod.mk.eta, hzf]
    exact hmmem
  · intro p hp
    rw [hbe]
    rw [hzf] at hp
    exact hmall p hp
  · rw [hwd, hwde, hkey n (by rw [hzf]; exact hnmem), Prod.mk.eta, hzf]
    exact hnmem
  · intro p hp
    rw [hwde]
    rw [hzf] at hp
    exact hnall p hp

/-- C7: when a fetch is actually attempted (cache miss), the returned
snapshot's `is_simulated` flag is `true` exactly when no usable live
response arrived; the flag is copied untouched into
`weather_conditions` by the assessment; parsed snapshots carry
`false`, simulated ones `true`. -/
theorem simulated_flag_iff (st : CacheState) (now : ℚ) (o : FetchOutcome) (r : SimDraw)
    (w : Weather) (j : WeatherJson)
    (hmiss : st.weather_cache = none ∨ 600 ≤ now - st.last_weather_update) :
    ((fetch_weather_data st now o r).1.is_simulated = true ↔ liveOk o = false) ∧
    (assess_rf_environment w).weather_conditions.is_simulated = w.is_simulated ∧
    (parse_weather_data j now).is_simulated = false ∧
    (generate_simulated_weather r now).is_simulated = true := by
  refine ⟨?_, rfl, rfl, rfl⟩
  rw [fetch_weather_data_miss st now o r hmiss]
  rcases o with _ | ⟨status, body⟩
  · simp [attempt_fetch, generate_simulated_weather, liveOk]
  · by_cases hs : status = 200
    · subst hs
      rcases body with _ | dta
      · simp [attempt_fetch, generate_simulated_weather, liveOk]
      · simp [attempt_fetch, parse_weather_data, liveOk]
    · rw [attempt_fetch_failure st now (FetchOutcome.resp status body) r
        (show fetch_failure (FetchOutcome.resp status body) from Or.inl hs)]
      simp [generate_simulated_weather, liveOk, hs]

/-- Witness for C7: an exception outcome against the initial state,
and concrete snapshots through the assessment and both constructors. -/
theorem simulated_flag_iff_witness :
    (initState.weather_cache = none ∨ 600 ≤ (1000 : ℚ) - initState.last_weather_update) ∧
    (((fetch_weather_data initState 1000 FetchOutcome.exc
        ⟨260, 0, 4, 70, 22, 1015, 15⟩).1.is_simulated = true ↔
      liveOk FetchOutcome.exc = false) ∧
    (assess_rf_environment ⟨1, 0, 50, 15, 1010, 8, 3, locationName, true⟩).weather_conditions.is_simulated =
      (⟨1, 0, 50, 15, 1010, 8, 3, locationName, true⟩ : Weather).is_simulated ∧
    (parse_weather_data emptyJson 1000).is_simulated = false ∧
    (generate_simulated_weather ⟨260, 0, 4, 70, 22, 1015, 15⟩ 1000).is_simulated = true) :=
  ⟨Or.inl rfl, simulated_flag_iff initState 1000 FetchOutcome.exc ⟨260, 0, 4, 70, 22, 1015, 15⟩
    ⟨1, 0, 50, 15, 1010, 8, 3, locationName, true⟩ emptyJson (Or.inl rfl)⟩

/-- C8 counterexample: at fixed temperature 18 °C and pressure
1013.25 hPa, the ducting probability at 0 % humidity (0.48) exceeds
the one at 60 % humidity (0.3), so the probability does *not* attain
its maximum at 60 % humidity. -/
theorem ducting_humidity_counterexample :
    (calculate_atmospheric_ducting
      ⟨3, 270, 60, 18, 1013.25, 10, 0, locationName, false⟩).ducting_probability = 0.3 ∧
    (calculate_atmospheric_ducting
      ⟨3, 270, 0, 18, 1013.25, 10, 0, locationName, false⟩).ducting_probability = 0.48 ∧
    ¬ ((calculate_atmospheric_ducting
        ⟨3, 270, 0, 18, 1013.25, 10, 0, locationName, false⟩).ducting_probability ≤
      (calculate_atmospheric_ducting
        ⟨3, 270, 60, 18, 1013.25, 10, 0, locationName, false⟩).ducting_probability) := by
  have h60 : (calculate_atmospheric_ducting
      ⟨3, 270, 60, 18, 1013.25, 10, 0, locationName, false⟩).ducting_probability = 0.3 := by
    norm_num [calculate_atmospheric_ducting, ducting_strength_raw, ducting_conditions_raw,
      pressure_gradient_raw, ducting_temp_factor, humidity_gradient_raw, pyRound3, round_eq,
      abs_of_nonneg, max_def, min_def]
  have h0 : (calculate_atmospheric_ducting
      ⟨3, 270, 0, 18, 1013.25, 10, 0, locationName, false⟩).ducting_probability = 0.48 := by
    norm_num [calculate_atmospheric_ducting, ducting_strength_raw, ducting_conditions_raw,
      pressure_gradient_raw, ducting_temp_factor, humidity_gradient_raw, pyRound3, round_eq,
      abs_of_nonneg, max_def, min_def]
  refine ⟨h60, h0, ?_⟩
  rw [h60, h0]
  norm_num

/-- C8 (amended): because the humidity term enters through
`abs(humidity - 60)`, the ducting probability — viewed at fixed
temperature and pressure — attains its *minimum* at 60 % humidity:
changing any snapshot's humidity to 60 never increases it.  The
temperature factor does peak at 18 °C. -/
theorem ducting_probability_min_at_60 (w : Weather) :
    (calculate_atmospheric_ducting { w with humidity := 60 }).ducting_probability ≤
      (calculate_atmospheric_ducting w).ducting_probability ∧
    ∀ t : ℚ, ducting_temp_factor t ≤ ducting_temp_factor 18 := by
  constructor
  · have hcond : ducting_conditions_raw { w with humidity := 60 } ≤
        ducting_conditions_raw w := by
      unfold ducting_conditions_raw pressure_gradient_raw ducting_temp_factor
        humidity_gradient_raw
      have habs : (0 : ℚ) ≤ |(w.humidity - 60) / 100| * 0.3 := by positivity
      have h60 : |((60 : ℚ) - 60) / 100| * 0.3 = 0 := by norm_num
      show |(w.pressure - 1013.25) / 1013.25| * 0.4 + (1 - |w.temperature - 18| / 50) * 0.3 +
          |((60 : ℚ) - 60) / 100| * 0.3 ≤
        |(w.pressure - 1013.25) / 1013.25| * 0.4 + (1 - |w.temperature - 18| / 50) * 0.3 +
          |(w.humidity - 60) / 100| * 0.3
      linarith
    exact pyRound3_mono (max_le_max le_rfl (min_le_min hcond le_rfl))
  · intro t
    unfold ducting_temp_factor
    have h := abs_nonneg (t - 18)
    have h18 : |(18 : ℚ) - 18| = 0 := by norm_num
    rw [h18]
    linarith

end EnvRF
